import Mathlib

/-!
AirGradient firmware glue: cloud client and PMS5003T driver.

A shallow embedding of `src/AgApiClient.cpp` and `src/PMS/PMS5003T.cpp`.

* Member functions become functions from the object state (and the answers of
  the outside world to the calls they make) to the returned value, the new
  object state and the list of calls made on the vendor libraries, in order.
* Preprocessor switches (`ESP8266`, `ARDUINO_USB_CDC_ON_BOOT`) are fields of
  `Build`.
* `float` arithmetic is read over the rationals.
-/

namespace AirGradient

/-- Preprocessor switches the two translation units branch on. -/
structure Build where
  /-- The symbol `ESP8266` is defined. -/
  esp8266 : Bool
  /-- The value of `ARDUINO_USB_CDC_ON_BOOT` is non-zero. -/
  usbCdcOnBoot : Bool
  deriving DecidableEq, Repr

/-! ## AgApiClient -/

/-- Modelled from the spec: the enumeration `ConfigurationControl` is declared in
`AgConfigure.h`, which is not among the sources. The code names one member,
`ConfigurationControlLocal`; every other member is `other`. -/
inductive ConfigurationControl
  | ConfigurationControlLocal
  | other (tag : Nat)
  deriving DecidableEq, Repr

/-- Calls `AgApiClient` makes on its logger, on the vendor HTTP client and on the
configuration object. -/
inductive ApiEvent
  | logInfo (msg : String)
  | logWarning (msg : String)
  | logError (msg : String)
  /-- The call `client.begin(...)`; `wifiClient` tells whether a `WiFiClient` was passed. -/
  | clientBegin (wifiClient : Bool) (uri : String)
  | clientAddHeader (name value : String)
  | clientGET
  | clientPOST (data : String)
  | clientGetString
  | clientEnd
  /-- The call `config.parse(content, isLocal)`. -/
  | configParse (content : String) (isLocal : Bool)
  deriving DecidableEq, Repr

/-- An event is a call on the vendor HTTP client. -/
def ApiEvent.isHttp : ApiEvent → Bool
  | .clientBegin _ _ => true
  | .clientAddHeader _ _ => true
  | .clientGET => true
  | .clientPOST _ => true
  | .clientGetString => true
  | .clientEnd => true
  | _ => false

/-- An event is a call of `config.parse`. -/
def ApiEvent.isParse : ApiEvent → Bool
  | .configParse _ _ => true
  | _ => false

/-- What the collaborators of `AgApiClient` answer during one call. -/
structure World where
  /-- Result of `config.getConfigurationControl()`. -/
  configurationControl : ConfigurationControl
  /-- Result of `config.isPostDataToAirGradient()`. -/
  postDataToAirGradient : Bool
  /-- Result of `WiFi.isConnected()`. -/
  wifiConnected : Bool
  /-- Result of `ag->deviceId()`. -/
  deviceId : String
  /-- Result of `client.begin(...)`. -/
  clientBeginOk : Bool
  /-- Result of `client.GET()` or `client.POST(data)`. -/
  retCode : Int
  /-- Result of `client.getString()`. -/
  respContent : String
  /-- Result of `config.parse(content, isLocal)`. -/
  parse : String → Bool → Bool

/-- The two data members of `AgApiClient` the code writes. -/
structure AgApiClient where
  getConfigFailed : Bool
  postToServerFailed : Bool
  deriving DecidableEq, Repr

namespace AgApiClient

/-- `AgApiClient::begin`. -/
def begin (_self : AgApiClient) : AgApiClient × List ApiEvent :=
  (⟨false, false⟩, [.logInfo "begin"])

/-- `AgApiClient::fetchServerConfiguration`. -/
def fetchServerConfiguration (b : Build) (w : World) (self : AgApiClient) :
    Bool × AgApiClient × List ApiEvent :=
  if w.configurationControl = ConfigurationControl.ConfigurationControlLocal then
    (false, { self with getConfigFailed := false },
      [.logWarning "Ignore fetch server configuration"])
  else
    let uri := "http://hw.airgradient.com/sensors/airgradient:" ++ w.deviceId ++ "/one/config"
    let tr := [ApiEvent.clientBegin b.esp8266 uri]
    if w.clientBeginOk = false then
      (false, { self with getConfigFailed := true }, tr)
    else if w.retCode ≠ 200 then
      (false, { self with getConfigFailed := true }, tr ++ [.clientGET, .clientEnd])
    else
      (w.parse w.respContent false, { self with getConfigFailed := false },
        tr ++ [.clientGET, .clientGetString, .clientEnd, .configParse w.respContent false])

/-- `AgApiClient::postToServer`. -/
def postToServer (w : World) (self : AgApiClient) (data : String) :
    Bool × AgApiClient × List ApiEvent :=
  if w.postDataToAirGradient = false then
    (true, self, [.logWarning "Ignore post data to server"])
  else if w.wifiConnected = false then
    (false, self, [])
  else
    let uri := "http://hw.airgradient.com/sensors/airgradient:" ++ w.deviceId ++ "/measures"
    let tr := [ApiEvent.logInfo ("Post uri: " ++ uri), .logInfo ("Post data: " ++ data),
      .clientBegin true uri]
    if w.clientBeginOk = false then
      (false, self, tr)
    else
      let tr := tr ++ [.clientAddHeader "content-type" "application/json", .clientPOST data,
        .clientEnd]
      if w.retCode = 200 ∨ w.retCode = 429 then
        (true, { self with postToServerFailed := false }, tr)
      else
        (false, { self with postToServerFailed := true },
          tr ++ [.logError ("Post response failed code: " ++ toString w.retCode)])

/-- `AgApiClient::isFetchConfigureFailed`. -/
def isFetchConfigureFailed (self : AgApiClient) : Bool := self.getConfigFailed

/-- `AgApiClient::isPostToServerFailed`. -/
def isPostToServerFailed (self : AgApiClient) : Bool := self.postToServerFailed

/-- A concrete world: cloud-controlled configuration, device `84fce612f5b8`, a
parser that accepts non-empty bodies; the switches and the HTTP return code are
the arguments. -/
def sampleWorld (post wifi beginOk : Bool) (retCode : Int) : World where
  configurationControl := .other 1
  postDataToAirGradient := post
  wifiConnected := wifi
  deviceId := "84fce612f5b8"
  clientBeginOk := beginOk
  retCode := retCode
  respContent := "country=TH"
  parse := fun content _ => !content.isEmpty

/-- The world `sampleWorld` with configuration control set to local. -/
def localWorld (post wifi beginOk : Bool) (retCode : Int) : World :=
  { sampleWorld post wifi beginOk retCode with
    configurationControl := .ConfigurationControlLocal }

end AgApiClient

/-! ## PMS5003T -/

/-- Modelled from the spec: the enumeration `BoardType` of `BoardDef.h` (not among
the sources), the key of the board-definition table, by its integer value, the
one the log lines print with `%d`. -/
abbrev BoardType := Nat

/-- Modelled from the spec: one sensor entry of the board-definition table, with
the fields the driver reads. The structure is declared in `BoardDef.h`, which is
not among the sources. -/
structure UartDef where
  uart_tx_pin : Int
  uart_rx_pin : Int
  supported : Bool
  deriving DecidableEq, Repr

/-- Modelled from the spec: an entry of the board-definition table (`BoardDef.h`,
not among the sources), with the two sensor entries the driver reads. -/
structure BoardDef where
  SenseAirS8 : UartDef
  Pms5003 : UartDef
  deriving DecidableEq, Repr

/-- Identity of a `HardwareSerial` object the driver can be handed. -/
inductive HardwareSerial
  | Serial
  | Serial0
  | other (uart : Nat)
  deriving DecidableEq, Repr

/-- Frame format argument of `HardwareSerial::begin`; the code names `SERIAL_8N1`. -/
inductive SerialConfig
  | SERIAL_8N1
  | other (bits : Nat)
  deriving DecidableEq, Repr

/-- The stream handed to the vendor driver's `pms.begin`. -/
inductive PmsStream
  /-- The `SoftwareSerial` object allocated by `begin` on ESP8266. -/
  | softwareSerial
  /-- The value of the pointer `_serial`. -/
  | hardwareSerial (port : Option HardwareSerial)
  deriving DecidableEq, Repr

/-- Calls `PMS5003T` makes on the board table, on serial ports, on the vendor
driver and on the log. A call through the pointer `_serial` is recorded with the
value of the pointer. -/
inductive PmsEvent
  /-- The log line `AgLog(fmt, args...)`. -/
  | AgLog (fmt : String) (args : List Nat)
  /-- The lookup `getBoardDef(def)`. -/
  | getBoardDef (boardType : BoardType)
  /-- The allocation `new SoftwareSerial(a, b)`. -/
  | newSoftwareSerial (a b : Int)
  /-- The call `uart->begin(baud)` on the allocated `SoftwareSerial`. -/
  | softwareSerialBegin (baud : Nat)
  /-- The call `_serial->begin(baud, config)` (no pins) or
  `_serial->begin(baud, config, rx, tx)` (pins `some (rx, tx)`). -/
  | serialBegin (port : Option HardwareSerial) (baud : Nat) (config : SerialConfig)
      (pins : Option (Int × Int))
  /-- The call `pms.begin(stream)` on the vendor driver. -/
  | pmsBegin (stream : PmsStream)
  /-- The statement `delete _serial`. -/
  | deleteSerial (port : Option HardwareSerial)
  deriving DecidableEq, Repr

/-- A serial port is opened. -/
def PmsEvent.isSerialOpen : PmsEvent → Bool
  | .newSoftwareSerial _ _ => true
  | .softwareSerialBegin _ => true
  | .serialBegin _ _ _ _ => true
  | _ => false

/-- The data members of `PMS5003T` written by the code. `_serial` exists when
`ESP8266` is not defined, `_debugStream` (a stream, by a number) when it is;
`none` is the null pointer. -/
structure PMS5003T where
  _isBegin : Bool
  _boardDef : BoardType
  bsp : Option BoardDef
  _serial : Option HardwareSerial
  _debugStream : Option Nat
  deriving DecidableEq, Repr

namespace PMS5003T

/-- `PMS5003T::begin(void)`. `getBoardDef` is the board-definition table and
`pmsBeginOk` the result of the vendor driver's `pms.begin`. -/
def begin (b : Build) (getBoardDef : BoardType → Option BoardDef) (pmsBeginOk : Bool)
    (self : PMS5003T) : Bool × PMS5003T × List PmsEvent :=
  if self._isBegin then
    (true, self, [])
  else
    let self := { self with bsp := getBoardDef self._boardDef }
    let tr := [PmsEvent.getBoardDef self._boardDef]
    match self.bsp with
    | none => (false, self, tr ++ [.AgLog "Board [%d] not supported" [self._boardDef]])
    | some bsp =>
      if bsp.Pms5003.supported = false then
        (false, self, tr ++ [.AgLog "Board [%d] PMS5003 not supported" [self._boardDef]])
      else if b.esp8266 then
        let tr := tr ++ [.newSoftwareSerial bsp.Pms5003.uart_tx_pin bsp.Pms5003.uart_rx_pin,
          .softwareSerialBegin 9600, .pmsBegin .softwareSerial]
        if pmsBeginOk = false then
          (false, self, tr ++ [.AgLog "PMS failed" []])
        else
          (true, { self with _isBegin := true }, tr)
      else
        let finish (tr : List PmsEvent) : Bool × PMS5003T × List PmsEvent :=
          let tr := tr ++ [.pmsBegin (.hardwareSerial self._serial)]
          if pmsBeginOk = false then
            (false, self, tr ++ [.AgLog "PMS failed" []])
          else
            (true, { self with _isBegin := true }, tr)
        if b.usbCdcOnBoot then
          if self._serial = some .Serial0 then
            finish (tr ++ [.AgLog "Init Serial0" [],
              .serialBegin self._serial 9600 .SERIAL_8N1 none])
          else if bsp.SenseAirS8.supported = false then
            (false, self, tr ++ [.AgLog "Board [%d] PMS5003T_2 not supported" [self._boardDef]])
          else
            finish (tr ++ [.AgLog "Init Serialx" [],
              .serialBegin self._serial 9600 .SERIAL_8N1
                (some (bsp.SenseAirS8.uart_rx_pin, bsp.SenseAirS8.uart_tx_pin))])
        else
          if self._serial = some .Serial then
            finish (tr ++ [.AgLog "Init Serial" [],
              .serialBegin self._serial 9600 .SERIAL_8N1
                (some (bsp.Pms5003.uart_rx_pin, bsp.Pms5003.uart_tx_pin))])
          else if bsp.SenseAirS8.supported = false then
            (false, self, tr ++ [.AgLog "Board [%d] PMS5003T_2 not supported" [self._boardDef]])
          else
            finish (tr ++ [.AgLog "Init Serialx" [],
              .serialBegin self._serial 9600 .SERIAL_8N1
                (some (bsp.SenseAirS8.uart_rx_pin, bsp.SenseAirS8.uart_tx_pin))])

/-- `PMS5003T::begin(HardwareSerial &serial)`, compiled when `ESP8266` is not defined. -/
def begin_serial (b : Build) (getBoardDef : BoardType → Option BoardDef) (pmsBeginOk : Bool)
    (self : PMS5003T) (serial : HardwareSerial) : Bool × PMS5003T × List PmsEvent :=
  begin b getBoardDef pmsBeginOk { self with _serial := some serial }

/-- `PMS5003T::begin(Stream *_debugStream)`, compiled when `ESP8266` is defined. -/
def begin_debugStream (b : Build) (getBoardDef : BoardType → Option BoardDef)
    (pmsBeginOk : Bool) (self : PMS5003T) (debugStream : Option Nat) :
    Bool × PMS5003T × List PmsEvent :=
  begin b getBoardDef pmsBeginOk { self with _debugStream := debugStream }

/-- `PMS5003T::isBegin`. -/
def isBegin (self : PMS5003T) : Bool × PMS5003T × List PmsEvent :=
  if self._isBegin = false then
    (false, self, [.AgLog "Not-initialized" []])
  else
    (true, self, [])

/-- `PMS5003T::end` (named `end_`, as `end` is reserved). -/
def end_ (b : Build) (self : PMS5003T) : PMS5003T × List PmsEvent :=
  if self._isBegin = false then
    (self, [])
  else if b.esp8266 then
    ({ self with _isBegin := false, _debugStream := none }, [.AgLog "De-initialize" []])
  else
    ({ self with _isBegin := false },
      [.deleteSerial self._serial, .AgLog "De-initialize" []])

/-- `PMS5003T::correctionTemperature`, over the rationals. -/
def correctionTemperature (inTemp : ℚ) : ℚ :=
  if inTemp < 10 then
    inTemp * 1.327 - 6.738
  else
    inTemp * 1.181 - 5.113

/-- `PMS5003T::correctionRelativeHumidity`, over the rationals. -/
def correctionRelativeHumidity (inHum : ℚ) : ℚ :=
  let hum := inHum * 1.259 + 7.34
  if hum > 100 then 100 else hum

/-- `PMS5003T::getTemperature`; `temp` is the value `pms.getTemp()` returned. -/
def getTemperature (temp : ℚ) : ℚ :=
  correctionTemperature (temp / 10)

/-- `PMS5003T::getRelativeHumidity`; `hum` is the value `pms.getHum()` returned. -/
def getRelativeHumidity (hum : ℚ) : ℚ :=
  correctionRelativeHumidity (hum / 10)

/-- A call on the public interface of the driver, with the answer the vendor
driver gives to `pms.begin` should the call reach it. -/
inductive Call
  | begin_serial (serial : HardwareSerial) (pmsBeginOk : Bool)
  | begin_debugStream (debugStream : Option Nat) (pmsBeginOk : Bool)
  | end_
  | isBegin
  deriving DecidableEq, Repr

/-- One call on the driver: the state after it and the value it returned (`none`
for `void`). -/
def step (b : Build) (getBoardDef : BoardType → Option BoardDef) (self : PMS5003T) :
    Call → PMS5003T × Option Bool
  | .begin_serial serial ok =>
    ((begin_serial b getBoardDef ok self serial).2.1,
      some (begin_serial b getBoardDef ok self serial).1)
  | .begin_debugStream debugStream ok =>
    ((begin_debugStream b getBoardDef ok self debugStream).2.1,
      some (begin_debugStream b getBoardDef ok self debugStream).1)
  | .end_ => ((end_ b self).1, none)
  | .isBegin => ((isBegin self).2.1, some (isBegin self).1)

/-- Calls made one after the other: the final state and the history, each call
with the value it returned. -/
def run (b : Build) (getBoardDef : BoardType → Option BoardDef) :
    PMS5003T → List Call → PMS5003T × List (Call × Option Bool)
  | self, [] => (self, [])
  | self, c :: cs =>
    ((run b getBoardDef (step b getBoardDef self c).1 cs).1,
      (c, (step b getBoardDef self c).2) :: (run b getBoardDef (step b getBoardDef self c).1 cs).2)

/-- A history entry is a `begin` that returned true. -/
def succeededBegin : Call × Option Bool → Bool
  | (.begin_serial _ _, some true) => true
  | (.begin_debugStream _ _, some true) => true
  | _ => false

/-- A history entry is a call of `end`. -/
def isEnd : Call × Option Bool → Bool
  | (.end_, _) => true
  | _ => false

/-- A board table with three entries: board 0 supports both sensors, board 1
supports the PMS5003 only, board 2 supports neither; no other board is known. -/
def sampleBoards : BoardType → Option BoardDef
  | 0 => some ⟨⟨1, 0, true⟩, ⟨21, 20, true⟩⟩
  | 1 => some ⟨⟨-1, -1, false⟩, ⟨21, 20, true⟩⟩
  | 2 => some ⟨⟨-1, -1, false⟩, ⟨-1, -1, false⟩⟩
  | _ => none

/-- A driver for board `boardDef` that has not begun and holds no pointers. -/
def sampleDriver (boardDef : BoardType) : PMS5003T :=
  ⟨false, boardDef, none, none, none⟩

end PMS5003T

/-! ## Theorems: AgApiClient -/

namespace AgApiClient

/-- C1: with posting enabled, WiFi connected and a successful `client.begin`, the
POST is issued, and `postToServer` returns true with `postToServerFailed = false`
exactly when the return code is 200 or 429; for every other return code (negative
ones included) it returns false with `postToServerFailed = true`. -/
theorem postToServer_return_code (w : World) (self : AgApiClient) (data : String)
    (hpost : w.postDataToAirGradient = true) (hwifi : w.wifiConnected = true)
    (hbegin : w.clientBeginOk = true) :
    ApiEvent.clientPOST data ∈ (postToServer w self data).2.2 ∧
    (((postToServer w self data).1 = true ∧
        (postToServer w self data).2.1.postToServerFailed = false) ↔
      (w.retCode = 200 ∨ w.retCode = 429)) ∧
    (¬(w.retCode = 200 ∨ w.retCode = 429) →
      (postToServer w self data).1 = false ∧
        (postToServer w self data).2.1.postToServerFailed = true) := by
  by_cases hc : w.retCode = 200 ∨ w.retCode = 429 <;>
    simp [postToServer, hpost, hwifi, hbegin, hc]

/-- Witness of C1: return code 429 from a client whose flag was set, and return
code -1 from a client whose flag was clear. -/
theorem postToServer_return_code_witness :
    ((postToServer (sampleWorld true true true 429) ⟨false, true⟩ "pm02=12").1 = true ∧
      (postToServer (sampleWorld true true true 429) ⟨false, true⟩
        "pm02=12").2.1.postToServerFailed = false) ∧
    ((postToServer (sampleWorld true true true (-1)) ⟨false, false⟩ "pm02=12").1 = false ∧
      (postToServer (sampleWorld true true true (-1)) ⟨false, false⟩
        "pm02=12").2.1.postToServerFailed = true) :=
  ⟨(postToServer_return_code (sampleWorld true true true 429) ⟨false, true⟩ "pm02=12"
      rfl rfl rfl).2.1.mpr (Or.inr rfl),
   (postToServer_return_code (sampleWorld true true true (-1)) ⟨false, false⟩ "pm02=12"
      rfl rfl rfl).2.2 (by decide)⟩

/-- C2: with configuration control not local. If `client.begin` succeeds and the
GET returns a code other than 200, the call returns false, sets `getConfigFailed`
and makes no call of `config.parse`. If it returns 200, `getConfigFailed` is
cleared, `config.parse(respContent, false)` is the one call of the parser and its
result is the returned value. If `client.begin` fails, the call returns false,
sets `getConfigFailed` and issues no GET. -/
theorem fetchServerConfiguration_status (b : Build) (w : World) (self : AgApiClient)
    (hctl : w.configurationControl ≠ ConfigurationControl.ConfigurationControlLocal) :
    (w.clientBeginOk = true → w.retCode ≠ 200 →
      (fetchServerConfiguration b w self).1 = false ∧
      (fetchServerConfiguration b w self).2.1.getConfigFailed = true ∧
      ApiEvent.clientGET ∈ (fetchServerConfiguration b w self).2.2 ∧
      ∀ e ∈ (fetchServerConfiguration b w self).2.2, e.isParse = false) ∧
    (w.clientBeginOk = true → w.retCode = 200 →
      (fetchServerConfiguration b w self).1 = w.parse w.respContent false ∧
      (fetchServerConfiguration b w self).2.1.getConfigFailed = false ∧
      ApiEvent.clientGET ∈ (fetchServerConfiguration b w self).2.2 ∧
      (fetchServerConfiguration b w self).2.2.filter ApiEvent.isParse =
        [ApiEvent.configParse w.respContent false]) ∧
    (w.clientBeginOk = false →
      (fetchServerConfiguration b w self).1 = false ∧
      (fetchServerConfiguration b w self).2.1.getConfigFailed = true ∧
      ApiEvent.clientGET ∉ (fetchServerConfiguration b w self).2.2 ∧
      ∀ e ∈ (fetchServerConfiguration b w self).2.2, e.isParse = false) := by
  refine ⟨fun hb hc => ?_, fun hb hc => ?_, fun hb => ?_⟩
  · simp [fetchServerConfiguration, hctl, hb, hc, ApiEvent.isParse]
  · simp [fetchServerConfiguration, hctl, hb, hc, ApiEvent.isParse, List.filter]
  · simp [fetchServerConfiguration, hctl, hb, ApiEvent.isParse]

/-- Witness of C2: cloud control with return codes 404 and 200, and a failing
`client.begin`. -/
theorem fetchServerConfiguration_status_witness :
    ((fetchServerConfiguration ⟨false, false⟩ (sampleWorld true true true 404)
        ⟨false, false⟩).1 = false ∧
      (fetchServerConfiguration ⟨false, false⟩ (sampleWorld true true true 404)
        ⟨false, false⟩).2.1.getConfigFailed = true) ∧
    ((fetchServerConfiguration ⟨false, false⟩ (sampleWorld true true true 200)
        ⟨true, false⟩).1 = true ∧
      (fetchServerConfiguration ⟨false, false⟩ (sampleWorld true true true 200)
        ⟨true, false⟩).2.1.getConfigFailed = false) ∧
    ((fetchServerConfiguration ⟨true, false⟩ (sampleWorld true true false 200)
        ⟨false, false⟩).1 = false ∧
      (fetchServerConfiguration ⟨true, false⟩ (sampleWorld true true false 200)
        ⟨false, false⟩).2.1.getConfigFailed = true) :=
  have h1 := (fetchServerConfiguration_status ⟨false, false⟩ (sampleWorld true true true 404)
    ⟨false, false⟩ (by decide)).1 rfl (by decide)
  have h2 := (fetchServerConfiguration_status ⟨false, false⟩ (sampleWorld true true true 200)
    ⟨true, false⟩ (by decide)).2.1 rfl rfl
  have h3 := (fetchServerConfiguration_status ⟨true, false⟩ (sampleWorld true true false 200)
    ⟨false, false⟩ (by decide)).2.2 rfl
  ⟨⟨h1.1, h1.2.1⟩, ⟨h2.1.trans (by decide), h2.2.1⟩, ⟨h3.1, h3.2.1⟩⟩

/-- C3: when configuration control is local, `fetchServerConfiguration` makes no
call on the HTTP client and none of `config.parse`, returns false, leaves
`getConfigFailed = false` whatever it was, and leaves `postToServerFailed` as it
was. -/
theorem fetchServerConfiguration_local (b : Build) (w : World) (self : AgApiClient)
    (hctl : w.configurationControl = ConfigurationControl.ConfigurationControlLocal) :
    (fetchServerConfiguration b w self).1 = false ∧
    (fetchServerConfiguration b w self).2.1.getConfigFailed = false ∧
    (fetchServerConfiguration b w self).2.1.postToServerFailed = self.postToServerFailed ∧
    ∀ e ∈ (fetchServerConfiguration b w self).2.2, e.isHttp = false ∧ e.isParse = false := by
  simp [fetchServerConfiguration, hctl, ApiEvent.isHttp, ApiEvent.isParse]

/-- Witness of C3: local control, after a failed fetch and a failed post. -/
theorem fetchServerConfiguration_local_witness :
    (localWorld true true true 200).configurationControl =
      ConfigurationControl.ConfigurationControlLocal ∧
    (fetchServerConfiguration ⟨false, true⟩ (localWorld true true true 200) ⟨true, true⟩).1
      = false ∧
    (fetchServerConfiguration ⟨false, true⟩ (localWorld true true true 200)
      ⟨true, true⟩).2.1.getConfigFailed = false ∧
    (fetchServerConfiguration ⟨false, true⟩ (localWorld true true true 200)
      ⟨true, true⟩).2.1.postToServerFailed = true :=
  have h := fetchServerConfiguration_local ⟨false, true⟩ (localWorld true true true 200)
    ⟨true, true⟩ rfl
  ⟨rfl, h.1, h.2.1, h.2.2.1⟩

/-- C4: when posting to the cloud is switched off, `postToServer` makes no call
on the HTTP client, returns true, and leaves both `postToServerFailed` and
`getConfigFailed` as they were. -/
theorem postToServer_disabled (w : World) (self : AgApiClient) (data : String)
    (hpost : w.postDataToAirGradient = false) :
    (postToServer w self data).1 = true ∧
    (postToServer w self data).2.1.postToServerFailed = self.postToServerFailed ∧
    (postToServer w self data).2.1.getConfigFailed = self.getConfigFailed ∧
    ∀ e ∈ (postToServer w self data).2.2, e.isHttp = false := by
  simp [postToServer, hpost, ApiEvent.isHttp]

/-- Witness of C4: posting switched off, both flags set before the call. -/
theorem postToServer_disabled_witness :
    (sampleWorld false true true 200).postDataToAirGradient = false ∧
    (postToServer (sampleWorld false true true 200) ⟨true, true⟩ "pm02=12").1 = true ∧
    (postToServer (sampleWorld false true true 200) ⟨true, true⟩
      "pm02=12").2.1.postToServerFailed = true ∧
    (postToServer (sampleWorld false true true 200) ⟨true, true⟩
      "pm02=12").2.1.getConfigFailed = true :=
  have h := postToServer_disabled (sampleWorld false true true 200) ⟨true, true⟩ "pm02=12" rfl
  ⟨rfl, h.1, h.2.1, h.2.2.1⟩

/-- C5, as stated, fails: posting switched off and `postToServerFailed` set by an
earlier call; the call returns true and `isPostToServerFailed` still says true. -/
theorem postToServer_flag_counterexample :
    ¬(isPostToServerFailed
        (postToServer (sampleWorld false true true 200) ⟨false, true⟩ "pm02=12").2.1 = true ↔
      (postToServer (sampleWorld false true true 200) ⟨false, true⟩ "pm02=12").1 = false) := by
  simp [postToServer, sampleWorld, isPostToServerFailed]

/-- C5, amended: when posting is switched off the call returns true and
`isPostToServerFailed` answers as before the call; when posting is enabled, WiFi is
connected and `client.begin` succeeds, `isPostToServerFailed` after the call is
true exactly when the call returned false, and false exactly when it returned
true. -/
theorem postToServer_flag_tracks_request (w : World) (self : AgApiClient) (data : String) :
    (w.postDataToAirGradient = false →
      (postToServer w self data).1 = true ∧
      isPostToServerFailed (postToServer w self data).2.1 = isPostToServerFailed self) ∧
    (w.postDataToAirGradient = true → w.wifiConnected = true → w.clientBeginOk = true →
      (isPostToServerFailed (postToServer w self data).2.1 = true ↔
        (postToServer w self data).1 = false) ∧
      (isPostToServerFailed (postToServer w self data).2.1 = false ↔
        (postToServer w self data).1 = true)) := by
  refine ⟨fun hp => ?_, fun hp hw hb => ?_⟩
  · simp [postToServer, hp]
  · by_cases hc : w.retCode = 200 ∨ w.retCode = 429 <;>
      simp [postToServer, isPostToServerFailed, hp, hw, hb, hc]

/-- Witness of C5 amended: a skipped post after a failure, and a post answered 500. -/
theorem postToServer_flag_tracks_request_witness :
    ((postToServer (sampleWorld false false true 200) ⟨false, true⟩ "pm02=12").1 = true ∧
      isPostToServerFailed
        (postToServer (sampleWorld false false true 200) ⟨false, true⟩ "pm02=12").2.1 = true) ∧
    (isPostToServerFailed
        (postToServer (sampleWorld true true true 500) ⟨false, false⟩ "pm02=12").2.1 = true ↔
      (postToServer (sampleWorld true true true 500) ⟨false, false⟩ "pm02=12").1 = false) :=
  ⟨(postToServer_flag_tracks_request (sampleWorld false false true 200) ⟨false, true⟩
      "pm02=12").1 rfl,
   ((postToServer_flag_tracks_request (sampleWorld true true true 500) ⟨false, false⟩
      "pm02=12").2 rfl rfl rfl).1⟩

/-- With posting enabled, a call made while WiFi is down or whose `client.begin`
fails returns false and leaves `postToServerFailed` as it was. -/
theorem postToServer_early_failure (w : World) (self : AgApiClient) (data : String)
    (hpost : w.postDataToAirGradient = true)
    (h : w.wifiConnected = false ∨ w.clientBeginOk = false) :
    (postToServer w self data).1 = false ∧ (postToServer w self data).2.1 = self := by
  rcases h with h | h
  · simp [postToServer, hpost, h]
  · by_cases hw : w.wifiConnected = false <;> simp [postToServer, hpost, h, hw]

end AgApiClient

/-! ## Theorems: PMS5003T -/

namespace PMS5003T

/-- A `begin` on a driver that has begun returns at once. -/
theorem begin_of_begun (b : Build) (getBoardDef : BoardType → Option BoardDef)
    (pmsBeginOk : Bool) (self : PMS5003T) (h : self._isBegin = true) :
    begin b getBoardDef pmsBeginOk self = (true, self, []) := by
  simp [begin, h]

/-- The value `begin` returns is the value of `_isBegin` after it. -/
theorem begin_fst_eq_isBegin (b : Build) (getBoardDef : BoardType → Option BoardDef)
    (pmsBeginOk : Bool) (self : PMS5003T) :
    (begin b getBoardDef pmsBeginOk self).1 = (begin b getBoardDef pmsBeginOk self).2.1._isBegin := by
  by_cases h : self._isBegin = true
  · simp [begin, h]
  · simp only [Bool.not_eq_true] at h
    unfold begin
    simp only [h, Bool.false_eq_true, if_false]
    cases getBoardDef self._boardDef with
    | none => simp [h]
    | some bsp =>
      simp only
      split_ifs <;> simp [h]

/-- C6, as stated, fails when USB CDC is on at boot: handed `Serial0` on a board
whose PMS5003 pins are rx 20 and tx 21, `begin` opens the port with no pin
arguments, and no call opens it on those pins. -/
theorem begin_cdc_counterexample :
    PmsEvent.serialBegin (some .Serial0) 9600 .SERIAL_8N1 (some (20, 21)) ∉
        (begin_serial ⟨false, true⟩ sampleBoards true (sampleDriver 0) .Serial0).2.2 ∧
    (begin_serial ⟨false, true⟩ sampleBoards true (sampleDriver 0) .Serial0).2.2.filter
        PmsEvent.isSerialOpen =
      [.serialBegin (some .Serial0) 9600 .SERIAL_8N1 none] := by
  decide

/-- C6, amended. On a driver that has not begun: `begin` returns false, leaves
`_isBegin = false` and opens no port when the board is unknown or its
`Pms5003.supported` is false. When `ESP8266` is not defined and the board supports
the PMS5003: handed `Serial` without USB CDC on boot, the port is opened once, at
9600 8N1 on the board's Pms5003 rx and tx pins; handed `Serial0` with USB CDC on
boot, it is opened once, at 9600 8N1 with no pin arguments; handed any other port,
`begin` returns false with `_isBegin = false` and opens nothing if
`SenseAirS8.supported` is false, and else opens the port once, at 9600 8N1 on the
SenseAirS8 rx and tx pins. Whenever a port was opened, `pms.begin` is called on it
and its result is both the returned value and the new `_isBegin`. In every case a
true result needs `pms.begin` to succeed and comes with `_isBegin = true`. -/
theorem begin_dispatch (b : Build) (getBoardDef : BoardType → Option BoardDef)
    (pmsBeginOk : Bool) (self : PMS5003T) (serial : HardwareSerial)
    (hnb : self._isBegin = false) :
    ((getBoardDef self._boardDef = none ∨
        ∃ bsp, getBoardDef self._boardDef = some bsp ∧ bsp.Pms5003.supported = false) →
      (begin b getBoardDef pmsBeginOk self).1 = false ∧
      (begin b getBoardDef pmsBeginOk self).2.1._isBegin = false ∧
      (begin b getBoardDef pmsBeginOk self).2.2.filter PmsEvent.isSerialOpen = []) ∧
    (∀ bsp, getBoardDef self._boardDef = some bsp → bsp.Pms5003.supported = true →
      b.esp8266 = false →
      (b.usbCdcOnBoot = false → serial = .Serial →
        (begin_serial b getBoardDef pmsBeginOk self serial).2.2.filter PmsEvent.isSerialOpen =
          [.serialBegin (some .Serial) 9600 .SERIAL_8N1
            (some (bsp.Pms5003.uart_rx_pin, bsp.Pms5003.uart_tx_pin))] ∧
        PmsEvent.pmsBegin (.hardwareSerial (some serial)) ∈
          (begin_serial b getBoardDef pmsBeginOk self serial).2.2 ∧
        (begin_serial b getBoardDef pmsBeginOk self serial).1 = pmsBeginOk ∧
        (begin_serial b getBoardDef pmsBeginOk self serial).2.1._isBegin = pmsBeginOk) ∧
      (b.usbCdcOnBoot = true → serial = .Serial0 →
        (begin_serial b getBoardDef pmsBeginOk self serial).2.2.filter PmsEvent.isSerialOpen =
          [.serialBegin (some .Serial0) 9600 .SERIAL_8N1 none] ∧
        PmsEvent.pmsBegin (.hardwareSerial (some serial)) ∈
          (begin_serial b getBoardDef pmsBeginOk self serial).2.2 ∧
        (begin_serial b getBoardDef pmsBeginOk self serial).1 = pmsBeginOk ∧
        (begin_serial b getBoardDef pmsBeginOk self serial).2.1._isBegin = pmsBeginOk) ∧
      (serial ≠ (if b.usbCdcOnBoot then .Serial0 else .Serial) →
        bsp.SenseAirS8.supported = false →
        (begin_serial b getBoardDef pmsBeginOk self serial).1 = false ∧
        (begin_serial b getBoardDef pmsBeginOk self serial).2.1._isBegin = false ∧
        (begin_serial b getBoardDef pmsBeginOk self serial).2.2.filter PmsEvent.isSerialOpen =
          []) ∧
      (serial ≠ (if b.usbCdcOnBoot then .Serial0 else .Serial) →
        bsp.SenseAirS8.supported = true →
        (begin_serial b getBoardDef pmsBeginOk self serial).2.2.filter PmsEvent.isSerialOpen =
          [.serialBegin (some serial) 9600 .SERIAL_8N1
            (some (bsp.SenseAirS8.uart_rx_pin, bsp.SenseAirS8.uart_tx_pin))] ∧
        PmsEvent.pmsBegin (.hardwareSerial (some serial)) ∈
          (begin_serial b getBoardDef pmsBeginOk self serial).2.2 ∧
        (begin_serial b getBoardDef pmsBeginOk self serial).1 = pmsBeginOk ∧
        (begin_serial b getBoardDef pmsBeginOk self serial).2.1._isBegin = pmsBeginOk)) ∧
    ((begin b getBoardDef pmsBeginOk self).1 = true →
      pmsBeginOk = true ∧ (begin b getBoardDef pmsBeginOk self).2.1._isBegin = true) := by
  refine ⟨?_, ?_, ?_⟩
  · rintro (h | ⟨bsp, h, hs⟩)
    · simp [begin, hnb, h, PmsEvent.isSerialOpen]
    · simp [begin, hnb, h, hs, PmsEvent.isSerialOpen]
  · intro bsp hb hs he
    refine ⟨?_, ?_, ?_, ?_⟩
    · intro hc hser
      cases pmsBeginOk <;>
        simp [begin_serial, begin, hnb, hb, hs, he, hc, hser, PmsEvent.isSerialOpen]
    · intro hc hser
      cases pmsBeginOk <;>
        simp [begin_serial, begin, hnb, hb, hs, he, hc, hser, PmsEvent.isSerialOpen]
    · intro hser h8
      cases hc : b.usbCdcOnBoot <;> simp only [hc, if_true, if_false, Bool.false_eq_true] at hser <;>
        simp [begin_serial, begin, hnb, hb, hs, he, hc, hser, h8, PmsEvent.isSerialOpen]
    · intro hser h8
      cases hc : b.usbCdcOnBoot <;> simp only [hc, if_true, if_false, Bool.false_eq_true] at hser <;>
        cases pmsBeginOk <;>
        simp [begin_serial, begin, hnb, hb, hs, he, hc, hser, h8, PmsEvent.isSerialOpen]
  · intro h
    have h2 := begin_fst_eq_isBegin b getBoardDef pmsBeginOk self
    refine ⟨?_, by rw [← h2]; exact h⟩
    cases pmsBeginOk with
    | true => rfl
    | false =>
      exfalso
      revert h
      unfold begin
      simp only [hnb, Bool.false_eq_true, if_false]
      cases getBoardDef self._boardDef with
      | none => simp
      | some bsp =>
        simp only
        split_ifs <;> simp

/-- Witness of C6 amended: board 0 without USB CDC on boot, handed a port other
than `Serial`; the port is opened on the SenseAirS8 pins (rx 0, tx 1). -/
theorem begin_dispatch_witness :
    (sampleDriver 0)._isBegin = false ∧
    (begin_serial ⟨false, false⟩ sampleBoards true (sampleDriver 0) (.other 1)).2.2.filter
        PmsEvent.isSerialOpen =
      [.serialBegin (some (.other 1)) 9600 .SERIAL_8N1 (some (0, 1))] ∧
    (begin_serial ⟨false, false⟩ sampleBoards true (sampleDriver 0) (.other 1)).1 = true :=
  have h := ((begin_dispatch ⟨false, false⟩ sampleBoards true (sampleDriver 0) (.other 1)
    rfl).2.1 ⟨⟨1, 0, true⟩, ⟨21, 20, true⟩⟩ rfl rfl rfl).2.2.2 (by decide) rfl
  ⟨rfl, h.1, h.2.2.1⟩

/-- A history `a :: l` has an entry satisfying `P` with only entries satisfying
`Q` after it exactly when `a` is such an entry or `l` has one. -/
theorem split_cons_iff {α : Type} (P Q : α → Prop) (a : α) (l : List α) :
    (∃ pre e post, a :: l = pre ++ e :: post ∧ P e ∧ ∀ x ∈ post, Q x) ↔
      (P a ∧ ∀ x ∈ l, Q x) ∨ (∃ pre e post, l = pre ++ e :: post ∧ P e ∧ ∀ x ∈ post, Q x) := by
  constructor
  · rintro ⟨pre, e, post, h, hp, hq⟩
    cases pre with
    | nil =>
      simp only [List.nil_append, List.cons.injEq] at h
      obtain ⟨rfl, rfl⟩ := h
      exact Or.inl ⟨hp, hq⟩
    | cons c pre =>
      simp only [List.cons_append, List.cons.injEq] at h
      exact Or.inr ⟨pre, e, post, h.2, hp, hq⟩
  · rintro (⟨hp, hq⟩ | ⟨pre, e, post, h, hp, hq⟩)
    · exact ⟨[], a, l, rfl, hp, hq⟩
    · exact ⟨a :: pre, e, post, by simp [h], hp, hq⟩

/-- `end` leaves `_isBegin` false. -/
theorem end_isBegin (b : Build) (self : PMS5003T) : (end_ b self).1._isBegin = false := by
  unfold end_
  split_ifs with h1 h2 <;> simp_all

/-- `isBegin` leaves the driver as it was and returns `_isBegin`. -/
theorem isBegin_eq (self : PMS5003T) :
    (isBegin self).1 = self._isBegin ∧ (isBegin self).2.1 = self := by
  unfold isBegin
  split_ifs with h <;> simp_all

/-- After one call `_isBegin` is true exactly when the call was a `begin` that
returned true, or the driver had begun and the call was not an `end`. -/
theorem step_isBegin_iff (b : Build) (getBoardDef : BoardType → Option BoardDef)
    (self : PMS5003T) (c : Call) :
    (step b getBoardDef self c).1._isBegin = true ↔
      succeededBegin (c, (step b getBoardDef self c).2) = true ∨
      (self._isBegin = true ∧ isEnd (c, (step b getBoardDef self c).2) = false) := by
  cases c with
  | begin_serial serial ok =>
    have h1 := begin_fst_eq_isBegin b getBoardDef ok { self with _serial := some serial }
    have h2 : self._isBegin = true →
        (begin b getBoardDef ok { self with _serial := some serial }).1 = true := by
      intro h
      rw [begin_of_begun b getBoardDef ok { self with _serial := some serial } h]
    simp only [step, begin_serial, isEnd, and_true]
    rw [← h1]
    cases hr : (begin b getBoardDef ok { self with _serial := some serial }).1
    · have h3 : self._isBegin ≠ true := fun h => by simp [h2 h] at hr
      simp [succeededBegin, h3]
    · simp [succeededBegin]
  | begin_debugStream ds ok =>
    have h1 := begin_fst_eq_isBegin b getBoardDef ok { self with _debugStream := ds }
    have h2 : self._isBegin = true →
        (begin b getBoardDef ok { self with _debugStream := ds }).1 = true := by
      intro h
      rw [begin_of_begun b getBoardDef ok { self with _debugStream := ds } h]
    simp only [step, begin_debugStream, isEnd, and_true]
    rw [← h1]
    cases hr : (begin b getBoardDef ok { self with _debugStream := ds }).1
    · have h3 : self._isBegin ≠ true := fun h => by simp [h2 h] at hr
      simp [succeededBegin, h3]
    · simp [succeededBegin]
  | end_ => simp [step, end_isBegin, succeededBegin, isEnd]
  | isBegin => simp [step, (isBegin_eq self).2, succeededBegin, isEnd]

/-- After any calls, `_isBegin` is true exactly when a `begin` returned true with
no `end` after it, or the driver had begun before the calls and none is an `end`. -/
theorem run_isBegin_iff (b : Build) (getBoardDef : BoardType → Option BoardDef)
    (cs : List Call) (self : PMS5003T) :
    (run b getBoardDef self cs).1._isBegin = true ↔
      (∃ pre e post, (run b getBoardDef self cs).2 = pre ++ e :: post ∧
        succeededBegin e = true ∧ ∀ x ∈ post, isEnd x = false) ∨
      (self._isBegin = true ∧ ∀ x ∈ (run b getBoardDef self cs).2, isEnd x = false) := by
  induction cs generalizing self with
  | nil => simp [run]
  | cons c cs ih =>
    simp only [run]
    rw [ih, split_cons_iff (fun e => succeededBegin e = true) (fun x => isEnd x = false),
      List.forall_mem_cons]
    have prop : ∀ S N A B C E : Prop, (A ↔ B ∨ (C ∧ E)) →
        ((S ∨ (A ∧ N)) ↔ ((B ∧ N) ∨ S) ∨ (C ∧ (E ∧ N))) := by
      intros
      tauto
    exact prop _ _ _ _ _ _ (step_isBegin_iff b getBoardDef self c)

/-- C9: over the state field `_isBegin`. A `begin()` on a driver that has begun
returns true, changes nothing and makes no call (no board lookup, no port opened),
and neither does the overload taking a serial port make any call; every `begin`,
through either public overload too, returns true exactly when `_isBegin` is true
after it; `end()` leaves `_isBegin = false` and does nothing when it was false
already; `isBegin()` returns `_isBegin` and leaves the driver as it was. Hence,
starting from a driver that has not begun, after any calls `isBegin()` returns
true exactly when some `begin` returned true and no `end` was called after it. -/
theorem isBegin_lifecycle (b : Build) (getBoardDef : BoardType → Option BoardDef)
    (pmsBeginOk : Bool) (self : PMS5003T) (cs : List Call) :
    (self._isBegin = true → begin b getBoardDef pmsBeginOk self = (true, self, [])) ∧
    (self._isBegin = true → ∀ serial,
      (begin_serial b getBoardDef pmsBeginOk self serial).1 = true ∧
      (begin_serial b getBoardDef pmsBeginOk self serial).2.2 = []) ∧
    ((begin b getBoardDef pmsBeginOk self).1 = true ↔
      (begin b getBoardDef pmsBeginOk self).2.1._isBegin = true) ∧
    (∀ serial, (begin_serial b getBoardDef pmsBeginOk self serial).1 = true ↔
      (begin_serial b getBoardDef pmsBeginOk self serial).2.1._isBegin = true) ∧
    (∀ debugStream, (begin_debugStream b getBoardDef pmsBeginOk self debugStream).1 = true ↔
      (begin_debugStream b getBoardDef pmsBeginOk self debugStream).2.1._isBegin = true) ∧
    (end_ b self).1._isBegin = false ∧
    (self._isBegin = false → end_ b self = (self, [])) ∧
    (isBegin self).1 = self._isBegin ∧
    (isBegin self).2.1 = self ∧
    (self._isBegin = false →
      ((isBegin (run b getBoardDef self cs).1).1 = true ↔
        ∃ pre e post, (run b getBoardDef self cs).2 = pre ++ e :: post ∧
          succeededBegin e = true ∧ ∀ x ∈ post, isEnd x = false)) := by
  refine ⟨begin_of_begun b getBoardDef pmsBeginOk self, ?_, ?_, ?_, ?_, end_isBegin b self, ?_,
    (isBegin_eq self).1, (isBegin_eq self).2, ?_⟩
  · intro h serial
    unfold begin_serial
    rw [begin_of_begun b getBoardDef pmsBeginOk { self with _serial := some serial } h]
    exact ⟨rfl, rfl⟩
  · rw [begin_fst_eq_isBegin]
  · intro serial
    unfold begin_serial
    rw [begin_fst_eq_isBegin]
  · intro debugStream
    unfold begin_debugStream
    rw [begin_fst_eq_isBegin]
  · intro h
    simp [end_, h]
  · intro h
    rw [(isBegin_eq _).1, run_isBegin_iff]
    simp [h]

/-- Witness of C9: a second `begin` on a driver that has begun; and, on board 0
handed `Serial`, a `begin` that succeeds, `isBegin`, `end`, a second `begin` that
succeeds and `isBegin` again. -/
theorem isBegin_lifecycle_witness :
    begin ⟨false, false⟩ sampleBoards false ⟨true, 0, none, some .Serial, none⟩ =
      (true, ⟨true, 0, none, some .Serial, none⟩, []) ∧
    (sampleDriver 0)._isBegin = false ∧
    ∃ pre e post,
      (run ⟨false, false⟩ sampleBoards (sampleDriver 0)
        [.begin_serial .Serial true, .isBegin, .end_, .begin_serial .Serial true,
          .isBegin]).2 = pre ++ e :: post ∧
      succeededBegin e = true ∧ ∀ x ∈ post, isEnd x = false :=
  ⟨(isBegin_lifecycle ⟨false, false⟩ sampleBoards false ⟨true, 0, none, some .Serial, none⟩
      []).1 rfl,
   rfl,
   ((isBegin_lifecycle ⟨false, false⟩ sampleBoards true (sampleDriver 0)
    [.begin_serial .Serial true, .isBegin, .end_, .begin_serial .Serial true,
      .isBegin]).2.2.2.2.2.2.2.2.2 rfl).mp (by decide)⟩

/-- C7: with `x = t / 10` for the raw value `t`, `getTemperature` is
`1.327 * x - 6.738` when `x < 10` and `1.181 * x - 5.113` when `10 ≤ x`; at
`x = 10` (raw value 100) it is the second formula. -/
theorem getTemperature_formula (t : ℚ) :
    (t / 10 < 10 → getTemperature t = 1.327 * (t / 10) - 6.738) ∧
    (10 ≤ t / 10 → getTemperature t = 1.181 * (t / 10) - 5.113) ∧
    getTemperature 100 = 1.181 * 10 - 5.113 := by
  refine ⟨fun h => ?_, fun h => ?_, ?_⟩
  · simp only [getTemperature, correctionTemperature, if_pos h]
    ring
  · simp only [getTemperature, correctionTemperature, if_neg (not_lt.mpr h)]
    ring
  · simp only [getTemperature, correctionTemperature]
    norm_num

/-- Witness of C7: raw values 99 (below the switch, 6.3993) and 253 (above it,
24.7663). -/
theorem getTemperature_formula_witness :
    getTemperature 99 = 6.3993 ∧ getTemperature 253 = 24.7663 :=
  ⟨((getTemperature_formula 99).1 (by norm_num)).trans (by norm_num),
   ((getTemperature_formula 253).2.1 (by norm_num)).trans (by norm_num)⟩

/-- C8: with `x = h / 10` for the raw value `h`, `getRelativeHumidity` is
`min (1.259 * x + 7.34) 100`; it never exceeds 100, and for a raw value that is
not negative it lies between 7.34 and 100. -/
theorem getRelativeHumidity_percentage (h : ℚ) :
    getRelativeHumidity h = min (1.259 * (h / 10) + 7.34) 100 ∧
    getRelativeHumidity h ≤ 100 ∧
    (0 ≤ h → 7.34 ≤ getRelativeHumidity h ∧ getRelativeHumidity h ≤ 100) := by
  have key : getRelativeHumidity h = min (1.259 * (h / 10) + 7.34) 100 := by
    simp only [getRelativeHumidity, correctionRelativeHumidity]
    split_ifs with hc
    · rw [min_eq_right]
      linarith
    · rw [min_eq_left]
      · ring
      · linarith
  refine ⟨key, ?_, fun h0 => ⟨?_, ?_⟩⟩
  · rw [key]
    exact min_le_right _ _
  · rw [key]
    refine le_min ?_ (by norm_num)
    have : 0 ≤ 1.259 * (h / 10) := by positivity
    linarith
  · rw [key]
    exact min_le_right _ _

/-- Witness of C8: raw values 0 (7.34), 500 (70.29) and 800 (capped at 100). -/
theorem getRelativeHumidity_percentage_witness :
    (7.34 ≤ getRelativeHumidity 0 ∧ getRelativeHumidity 0 ≤ 100) ∧
    getRelativeHumidity 500 = 70.29 ∧ getRelativeHumidity 800 = 100 :=
  ⟨(getRelativeHumidity_percentage 0).2.2 (le_refl 0),
   (getRelativeHumidity_percentage 500).1.trans (by norm_num),
   (getRelativeHumidity_percentage 800).1.trans (by norm_num)⟩

/-- C10: `correctionTemperature` is strictly increasing over the rationals, across
the switch of formula at 10 as well. -/
theorem correctionTemperature_lt (a b : ℚ) (hab : a < b) :
    correctionTemperature a < correctionTemperature b := by
  unfold correctionTemperature
  split_ifs with ha hb hb
  · linarith
  · have hb10 : 10 ≤ b := not_lt.mp hb
    linarith
  · linarith
  · linarith

/-- Witness of C10: the inputs 9.999 and 10, on either side of the switch. -/
theorem correctionTemperature_lt_witness :
    (9.999 : ℚ) < 10 ∧ correctionTemperature 9.999 < correctionTemperature 10 :=
  ⟨by norm_num, correctionTemperature_lt 9.999 10 (by norm_num)⟩

end PMS5003T

end AirGradient
